import Mathlib

/-!
Shallow embedding of the minaws client library (src/request.rs, src/s3.rs,
src/ssm.rs, src/ec2.rs, src/secretsmanager.rs, src/imds.rs).

External collaborators (the `ureq` transport, the `aws_sigv4` signing
primitive, `serde` codecs, `form_urlencoded`, and the system clock) are
modelled as explicit function parameters; everything written in the
repository itself is translated definitionally.  Machine integers carried by
the code (`u16` status codes, millisecond durations) never overflow in any
reachable computation (status codes and `retries * 10` stay far below 2^16 /
2^64), so they are embedded as `Nat`.
-/

set_option maxHeartbeats 1000000

namespace Minaws

/-- Model of `ureq::Response`: status code and body bytes (as a string, the
only way the repository consumes a body is feeding it whole to a decoder). -/
structure Response where
  status : Nat
  body : String
deriving DecidableEq

/-- Model of `ureq::Request`: method, URL, header pairs and query-parameter
pairs (the parts the repository reads and writes). -/
structure Request where
  method : String
  url : String
  headers : List (String × String)
  queryParams : List (String × String)
deriving DecidableEq

/-- Model of `ureq::Request::set`: set a header, replacing any existing
header of the same name. -/
def Request.set (r : Request) (name value : String) : Request :=
  { r with headers := r.headers.filter (fun h => h.1 ≠ name) ++ [(name, value)] }

/-- Model of `ureq::Request::query`: append a query parameter. -/
def Request.query (r : Request) (name value : String) : Request :=
  { r with queryParams := r.queryParams ++ [(name, value)] }

/-- Model of `ureq::Error`: a non-2xx HTTP response
(`ureq::Error::Status(u16, Response)`) or a transport-level failure
(`ureq::Error::Transport`). -/
inductive UreqError where
  | status (code : Nat) (response : Response)
  | transport (message : String)
deriving DecidableEq

/-- Model of `aws_sigv4::http_request::SigningError` (external crate); the
repository only propagates it, so its payload is abstracted to a message. -/
structure SigningError where
  message : String
deriving DecidableEq

/-- `request::Error` from src/request.rs: its single variant wraps the
sigv4 signing error. -/
inductive RequestError where
  | SigningError (e : SigningError)
deriving DecidableEq

/-- `aws_sigv4::http_request::PayloadChecksumKind`: `XAmzSha256` puts the
body hash in an `x-amz-content-sha256` header, `NoHeader` is the default. -/
inductive PayloadChecksumKind where
  | XAmzSha256
  | NoHeader
deriving DecidableEq

/-- Model of `aws_sigv4::http_request::SigningSettings` restricted to the
one field the repository ever touches, `payload_checksum_kind`; all other
fields of the external struct are left at their defaults by the code and
are therefore not modelled. -/
structure SigningSettings where
  payload_checksum_kind : PayloadChecksumKind
deriving DecidableEq

/-- `SigningSettings::default()`: payload checksum kind defaults to
`NoHeader` (signed headers only). -/
def SigningSettings.default : SigningSettings :=
  { payload_checksum_kind := PayloadChecksumKind.NoHeader }

/-- Model of `aws_smithy_runtime_api::client::identity::Identity` as the
credential material it carries (produced by `credentials.clone().into()`). -/
structure Identity where
  access_key_id : String
  secret_access_key : String
  session_token : Option String
deriving DecidableEq

/-- Model of `aws_sigv4::sign::v4::SigningParams` as built in
`sign_request`: identity, region, service name, signing timestamp
(`SystemTime::now()` captured once per signing call), settings. -/
structure SigningParams where
  identity : Identity
  region : String
  name : String
  time : Nat
  settings : SigningSettings
deriving DecidableEq

/-- Model of `aws_sigv4::http_request::SigningInstructions`: header pairs to
set and query parameters to add. -/
structure SigningInstructions where
  headers : List (String × String)
  params : List (String × String)
deriving DecidableEq

/-- Type of the external `aws_sigv4::http_request::sign` primitive: from
signing parameters, the signable request and the exact body bytes to either
signing instructions or a signing error. -/
abbrev Sigv4 := SigningParams → Request → List Nat → Except SigningError SigningInstructions

/-- The settings computation inlined at the top of `sign_request`
(src/request.rs lines 41-44): start from the default settings and switch
`payload_checksum_kind` to `XAmzSha256` exactly when the service is "s3". -/
def signingSettingsFor (service : String) : SigningSettings :=
  if service = "s3" then
    { SigningSettings.default with payload_checksum_kind := PayloadChecksumKind.XAmzSha256 }
  else
    SigningSettings.default

/-- `update_request` from src/request.rs: merge the signing instructions
into the request, first the headers, then the query parameters. -/
def update_request (request : Request) (instructions : SigningInstructions) : Request :=
  let r := instructions.headers.foldl (fun acc h => acc.set h.1 h.2) request
  instructions.params.foldl (fun acc p => acc.query p.1 p.2) r

/-- `sign_request` from src/request.rs: build the settings (s3 special
case), build the signing params with the current time, run the external
sigv4 signer over the request and the exact body bytes, and either merge the
resulting instructions into the request or surface the signing error as
`request::Error::SigningError`. -/
def sign_request (sigv4 : Sigv4) (now : Nat) (request : Request) (body : List Nat)
    (identity : Identity) (region : String) (service : String) :
    Except RequestError Request :=
  let signing_settings := signingSettingsFor service
  let signing_params : SigningParams :=
    { identity := identity, region := region, name := service,
      time := now, settings := signing_settings }
  match sigv4 signing_params request body with
  | .error e => .error (RequestError.SigningError e)
  | .ok signing_instructions => .ok (update_request request signing_instructions)

/-- An observable step of one `send` call: a transmission attempt (recording
the request and body bytes handed to the transport and the transport's
outcome) or a `thread::sleep` of the given number of milliseconds. -/
inductive SendEvent (ε : Type) where
  | attemptSend (req : Request) (body : List Nat) (outcome : Except ε Response)
  | sleep (millis : Nat)

/-- The retry loop shared verbatim by `Api::send` in src/s3.rs, src/ssm.rs,
src/ec2.rs and src/secretsmanager.rs:

    let mut retries = 0;
    loop {
        match req.clone().call().map_err(Into::into) {
            Ok(result) => return Ok(result),
            Err(e) => {
                if retries >= 3 { return Err(e); }
                if retries > 0 { sleep(Duration::from_millis(retries * 10)); }
                retries += 1;
            }
        }
    }

`call k` is the transport outcome of the k-th invocation (the loop calls the
transport once per iteration, with `retries = k` on the k-th iteration);
`budget` is `3 - retries`, so `budget = 0` exactly when `retries >= 3`.  The
returned list records the attempts and sleeps in program order, together
with the loop's result. -/
def retryLoopGo {ε : Type} (call : Nat → Except ε Response) (req : Request)
    (body : List Nat) : Nat → Nat → List (SendEvent ε) × Except ε Response
  | retries, 0 =>
    match call retries with
    | .ok r => ([.attemptSend req body (.ok r)], .ok r)
    | .error e => ([.attemptSend req body (.error e)], .error e)
  | retries, b + 1 =>
    match call retries with
    | .ok r => ([.attemptSend req body (.ok r)], .ok r)
    | .error e =>
      let rest := retryLoopGo call req body (retries + 1) b
      (.attemptSend req body (.error e) ::
        ((if retries > 0 then [SendEvent.sleep (retries * 10)] else []) ++ rest.1),
       rest.2)

/-- Number of transport invocations recorded in a trace. -/
def attemptCount {ε : Type} (evs : List (SendEvent ε)) : Nat :=
  (evs.filter fun ev =>
    match ev with
    | .attemptSend _ _ _ => true
    | .sleep _ => false).length

/-- The (request, body) pairs handed to the transport, in order. -/
def transmissions {ε : Type} (evs : List (SendEvent ε)) : List (Request × List Nat) :=
  evs.filterMap fun ev =>
    match ev with
    | .attemptSend r b _ => some (r, b)
    | .sleep _ => none

/-- The sleep durations that actually occurred, in order. -/
def sleepsOf {ε : Type} (evs : List (SendEvent ε)) : List Nat :=
  evs.filterMap fun ev =>
    match ev with
    | .attemptSend _ _ _ => none
    | .sleep ms => some ms

/-- For each transmission attempt in the trace, in order, the total number
of milliseconds slept since the previous attempt (0 for the first attempt);
`acc` accumulates sleep time seen since the last attempt. -/
def delaysBeforeAttempts {ε : Type} : List (SendEvent ε) → Nat → List Nat
  | [], _ => []
  | .sleep ms :: rest, acc => delaysBeforeAttempts rest (acc + ms)
  | .attemptSend _ _ _ :: rest, acc => acc :: delaysBeforeAttempts rest 0

/-- Model of `Result::map_err(Into::into)` applied to the transport outcome
inside the loop. -/
def mapUreqErr {ε : Type} (f : UreqError → ε) : Except UreqError Response → Except ε Response
  | .ok r => .ok r
  | .error e => .error (f e)

/-- The full observable behaviour of one per-service `send` call: the
(request, body) pairs passed to `sign_request`, the loop events, and the
final result. -/
structure SendTrace (ε : Type) where
  signCalls : List (Request × List Nat)
  events : List (SendEvent ε)
  result : Except ε Response

/-- Model of `serde_xml_rs::Error`, abstracted to a message. -/
structure XmlError where
  message : String
deriving DecidableEq

/-- Model of `serde_json::Error`, abstracted to a message. -/
structure JsonError where
  message : String
deriving DecidableEq

/-- Model of `std::io::ErrorKind`, restricted to the kinds src/imds.rs
constructs. -/
inductive IoErrorKind where
  | NotFound
  | InvalidInput
deriving DecidableEq

/-- Model of `std::io::Error`: a kind and a message. -/
structure IoError where
  kind : IoErrorKind
  message : String
deriving DecidableEq

namespace S3

/-- `SERVICE_NAME` from src/s3.rs. -/
def SERVICE_NAME : String := "s3"

/-- `ErrorBody` from src/s3.rs (the XML error-body shape). -/
structure ErrorBody where
  code : String
  message : String
  resource : Option String
  request_id : String
deriving DecidableEq

/-- `s3::Error` from src/s3.rs. -/
inductive Error where
  | Api (status : Nat) (response : Response)
  | Http (err : UreqError)
  | Imds (message : String)
  | Io (err : IoError)
  | NoSuchBucket
  | Request (err : RequestError)
  | S3 (body : ErrorBody)
  | Transport (err : UreqError)
  | Xml (err : XmlError)
deriving DecidableEq

/-- `impl From<ureq::Error> for Error` from src/s3.rs lines 45-52: a status
failure becomes `Error::Api(status, response)`, a transport failure becomes
`Error::Transport(err)`. -/
def Error.fromUreq : UreqError → Error
  | .status code response => .Api code response
  | .transport m => .Transport (.transport m)

/-- `Api::send` from src/s3.rs lines 133-152: derive the identity, sign the
request once with an empty body (`&[]`), then run the shared retry loop,
re-sending a clone of the same signed request (with no body: `.call()`) on
every attempt.  `net k r` is the transport outcome of the k-th attempt at
sending request `r`. -/
def send (sigv4 : Sigv4) (now : Nat) (net : Nat → Request → Except UreqError Response)
    (identity : Identity) (region : String) (req : Request) : SendTrace Error :=
  match sign_request sigv4 now req [] identity region SERVICE_NAME with
  | .error e => { signCalls := [(req, [])], events := [], result := .error (.Request e) }
  | .ok signed =>
    let t := retryLoopGo (fun k => mapUreqErr Error.fromUreq (net k signed)) signed [] 0 3
    { signCalls := [(req, [])], events := t.1, result := t.2 }

/-- `CommonPrefix` from src/s3.rs; the source field `prefix` is renamed
`pfx` because `prefix` is a Lean keyword. -/
structure CommonPrefix where
  pfx : String
deriving DecidableEq

/-- `Object` from src/s3.rs (`DateTime<Utc>` modelled as its string form;
none of these fields are ever computed with by the repository). -/
structure Object where
  checksum_algorithm : Option (List String)
  e_tag : Option (List String)
  key : Option String
  last_modified : Option String
  owner : Option String
  restore_status : Option String
  size : Option Int
  storage_class : Option String
deriving DecidableEq

/-- `ListObjectsV2Input` from src/s3.rs; the source field `prefix` is
renamed `pfx` because `prefix` is a Lean keyword. -/
structure ListObjectsV2Input where
  bucket : String
  continuation_token : Option String
  pfx : Option String
deriving DecidableEq

/-- `ListObjectsV2Output` from src/s3.rs; the source field `prefix` is
renamed `pfx` because `prefix` is a Lean keyword. -/
structure ListObjectsV2Output where
  common_prefixes : Option (List CommonPrefix)
  contents : Option (List Object)
  continuation_token : Option String
  delimiter : Option String
  encoding_type : Option String
  is_truncated : Option Bool
  key_count : Option Nat
  max_keys : Option Nat
  name : Option String
  next_continuation_token : Option String
  pfx : Option String
  start_after : Option String
deriving DecidableEq

/-- `Api::url` from src/s3.rs. -/
def url (region bucket : String) : String :=
  "https://" ++ bucket ++ "." ++ SERVICE_NAME ++ "." ++ region ++ ".amazonaws.com"

/-- `Api::list_objects_v2` from src/s3.rs lines 92-115: build the request,
call `self.send` (abstracted as the `send` parameter), then on success
deserialize the body into the output shape (a parse failure propagates via
`?` as `Error::Xml`); on an `Error::Api` status failure deserialize the body
into `ErrorBody` and wrap it as `Error::S3`, a parse failure there likewise
propagating via `?` as `Error::Xml`; any other error is returned as is. -/
def list_objects_v2 (send : Request → Except Error Response)
    (parse_output : String → Except XmlError ListObjectsV2Output)
    (parse_err_body : String → Except XmlError ErrorBody)
    (region : String) (input : ListObjectsV2Input) : Except Error ListObjectsV2Output :=
  let u := url region input.bucket
  let req0 : Request := { method := "GET", url := u ++ "/", headers := [], queryParams := [] }
  let req1 := req0.query "list-type" "2"
  let req2 :=
    match input.continuation_token with
    | some t => req1.query "continuation-token" t
    | none => req1
  let req3 :=
    match input.pfx with
    | some p => req2.query "prefix" p
    | none => req2
  match send req3 with
  | .ok response =>
    match parse_output response.body with
    | .ok output => .ok output
    | .error e => .error (.Xml e)
  | .error (.Api _ response) =>
    match parse_err_body response.body with
    | .ok err_body => .error (.S3 err_body)
    | .error e => .error (.Xml e)
  | .error err => .error err

end S3

namespace SSM

/-- `SERVICE_NAME` from src/ssm.rs. -/
def SERVICE_NAME : String := "ssm"

/-- `ErrorBody` from src/ssm.rs (the JSON error-body shape). -/
structure ErrorBody where
  type : String
  message : Option String
deriving DecidableEq

/-- `ssm::Error` from src/ssm.rs. -/
inductive Error where
  | Api (status : Nat) (response : Response)
  | Json (err : JsonError)
  | Request (err : RequestError)
  | SSM (body : ErrorBody)
  | Transport (err : UreqError)
deriving DecidableEq

/-- `impl From<ureq::Error> for Error` from src/ssm.rs lines 31-38. -/
def Error.fromUreq : UreqError → Error
  | .status code response => .Api code response
  | .transport m => .Transport (.transport m)

/-- `Api::send` from src/ssm.rs lines 118-138: serialize the input once
(`bodyResult` is the outcome of the external `serde_json::to_vec`; a
failure propagates via `?` as `Error::Json`), sign the request once over
those exact body bytes, then run the shared retry loop, re-sending a clone
of the same signed request with the same body (`send_bytes(&body)`) on
every attempt. -/
def send (sigv4 : Sigv4) (now : Nat)
    (net : Nat → Request → List Nat → Except UreqError Response)
    (identity : Identity) (region : String) (req : Request)
    (bodyResult : Except JsonError (List Nat)) : SendTrace Error :=
  match bodyResult with
  | .error e => { signCalls := [], events := [], result := .error (.Json e) }
  | .ok body =>
    match sign_request sigv4 now req body identity region SERVICE_NAME with
    | .error e => { signCalls := [(req, body)], events := [], result := .error (.Request e) }
    | .ok signed =>
      let t := retryLoopGo (fun k => mapUreqErr Error.fromUreq (net k signed body)) signed body 0 3
      { signCalls := [(req, body)], events := t.1, result := t.2 }

/-- `Parameter` from src/ssm.rs (`f64` modelled as `Float`; never computed
with by the repository). -/
structure Parameter where
  arn : Option String
  data_type : Option String
  last_modified_date : Option Float
  name : Option String
  selector : Option String
  source_result : Option String
  type : Option String
  value : Option String

/-- `GetParameterInput` from src/ssm.rs. -/
structure GetParameterInput where
  name : String
  with_decryption : Option Bool
deriving DecidableEq

/-- `GetParameterOutput` from src/ssm.rs. -/
structure GetParameterOutput where
  parameter : Option Parameter

/-- `Api::url` from src/ssm.rs. -/
def url (region : String) : String :=
  "https://" ++ SERVICE_NAME ++ "." ++ region ++ ".amazonaws.com"

/-- `Api::get_parameter` from src/ssm.rs lines 81-96: build the request,
call `self.send` (abstracted as the `send` parameter), then on success
deserialize the body into the output shape (a parse failure propagates via
`?` as `Error::Json`); on an `Error::Api` status failure deserialize the
body into `ErrorBody` and wrap it as `Error::SSM`, a parse failure there
likewise propagating via `?` as `Error::Json`; any other error is returned
as is. -/
def get_parameter (send : Request → Except Error Response)
    (parse_output : String → Except JsonError GetParameterOutput)
    (parse_err_body : String → Except JsonError ErrorBody)
    (region : String) : Except Error GetParameterOutput :=
  let req0 : Request := { method := "POST", url := url region, headers := [], queryParams := [] }
  let req1 := req0.set "Content-Type" "application/x-amz-json-1.1"
  let req2 := req1.set "X-Amz-Target" "AmazonSSM.GetParameter"
  match send req2 with
  | .ok response =>
    match parse_output response.body with
    | .ok output => .ok output
    | .error e => .error (.Json e)
  | .error (.Api _ response) =>
    match parse_err_body response.body with
    | .ok err_body => .error (.SSM err_body)
    | .error e => .error (.Json e)
  | .error err => .error err

end SSM

namespace EC2

/-- `SERVICE_NAME` from src/ec2.rs. -/
def SERVICE_NAME : String := "ec2"

/-- `ApiError` from src/ec2.rs. -/
structure ApiError where
  code : String
  message : String
deriving DecidableEq

/-- `Errors` from src/ec2.rs. -/
structure Errors where
  error : List ApiError
deriving DecidableEq

/-- `ErrorBody` from src/ec2.rs (the XML error-body shape). -/
structure ErrorBody where
  errors : Errors
  request_id : String
deriving DecidableEq

/-- `ec2::Error` from src/ec2.rs. -/
inductive Error where
  | Api (status : Nat) (response : Response)
  | Http (err : UreqError)
  | Io (err : IoError)
  | Json (err : JsonError)
  | Request (err : RequestError)
  | EC2 (body : ErrorBody)
  | Transport (err : UreqError)
  | Xml (err : XmlError)
deriving DecidableEq

/-- `impl From<ureq::Error> for Error` from src/ec2.rs lines 41-48. -/
def Error.fromUreq : UreqError → Error
  | .status code response => .Api code response
  | .transport m => .Transport (.transport m)

/-- `Api::send` from src/ec2.rs lines 144-176: form-urlencode the query
parameters into the body (`urlencode` abstracts the external
`form_urlencoded` serializer), sign the request once over those exact body
bytes, then run the shared retry loop, re-sending a clone of the same
signed request with the same body (`send_bytes(body)`) on every attempt. -/
def send (sigv4 : Sigv4) (now : Nat)
    (urlencode : List (String × String) → List Nat)
    (net : Nat → Request → List Nat → Except UreqError Response)
    (identity : Identity) (region : String) (req : Request)
    (params : List (String × String)) : SendTrace Error :=
  let body := urlencode params
  match sign_request sigv4 now req body identity region SERVICE_NAME with
  | .error e => { signCalls := [(req, body)], events := [], result := .error (.Request e) }
  | .ok signed =>
    let t := retryLoopGo (fun k => mapUreqErr Error.fromUreq (net k signed body)) signed body 0 3
    { signCalls := [(req, body)], events := t.1, result := t.2 }

/-- `Filter` from src/ec2.rs. -/
structure Filter where
  name : String
  values : List String
deriving DecidableEq

/-- `impl ToParams for Filter` (src/ec2.rs lines 194-203): push
`(prefix.Name, name)`, then for each value at 0-based index `i` push
`(prefix.Value.{i+1}, value)`.  The source parameter `prefix` is renamed
`pfx` because `prefix` is a Lean keyword. -/
def Filter.to_params (f : Filter) (pfx : String) : List (String × String) :=
  (pfx ++ ".Name", f.name) ::
    f.values.enum.map (fun iv => (pfx ++ ".Value." ++ toString (iv.1 + 1), iv.2))

/-- `impl ToParams for Vec<Filter>` (src/ec2.rs lines 205-214): the filter
at 0-based index `i` contributes its `to_params` under prefix
`pfx.{i+1}`, blocks concatenated in order. -/
def filters_to_params (fs : List Filter) (pfx : String) : List (String × String) :=
  (fs.enum.map (fun ifl => Filter.to_params ifl.2 (pfx ++ "." ++ toString (ifl.1 + 1)))).flatten

/-- `impl ToParams for Vec<String>` (src/ec2.rs lines 216-225): the value
at 0-based index `i` is pushed as `(pfx.{i+1}, value)`. -/
def strings_to_params (vs : List String) (pfx : String) : List (String × String) :=
  vs.enum.map (fun iv => (pfx ++ "." ++ toString (iv.1 + 1), iv.2))

end EC2

namespace SecretsManager

/-- `SERVICE_NAME` from src/secretsmanager.rs. -/
def SERVICE_NAME : String := "secretsmanager"

/-- `ErrorBody` from src/secretsmanager.rs. -/
structure ErrorBody where
  type : String
  message : Option String
deriving DecidableEq

/-- `secretsmanager::Error` from src/secretsmanager.rs. -/
inductive Error where
  | Api (status : Nat) (response : Response)
  | Json (err : JsonError)
  | Request (err : RequestError)
  | SecretsManager (body : ErrorBody)
  | Transport (err : UreqError)
deriving DecidableEq

/-- `impl From<ureq::Error> for Error` from src/secretsmanager.rs lines 31-38. -/
def Error.fromUreq : UreqError → Error
  | .status code response => .Api code response
  | .transport m => .Transport (.transport m)

/-- `Api::send` from src/secretsmanager.rs lines 98-118: same shape as the
ssm sender. -/
def send (sigv4 : Sigv4) (now : Nat)
    (net : Nat → Request → List Nat → Except UreqError Response)
    (identity : Identity) (region : String) (req : Request)
    (bodyResult : Except JsonError (List Nat)) : SendTrace Error :=
  match bodyResult with
  | .error e => { signCalls := [], events := [], result := .error (.Json e) }
  | .ok body =>
    match sign_request sigv4 now req body identity region SERVICE_NAME with
    | .error e => { signCalls := [(req, body)], events := [], result := .error (.Request e) }
    | .ok signed =>
      let t := retryLoopGo (fun k => mapUreqErr Error.fromUreq (net k signed body)) signed body 0 3
      { signCalls := [(req, body)], events := t.1, result := t.2 }

end SecretsManager

namespace Imds

/-- `Credentials` as produced by `Credentials::new` (external
`aws_credential_types` crate): the five arguments the repository passes.
`SystemTime` is modelled as seconds. -/
structure Credentials where
  access_key_id : String
  secret_access_key : String
  session_token : Option String
  expires_after : Option Nat
  provider_name : String
deriving DecidableEq

/-- Model of `HashMap::get` on the deserialized credentials map (the map is
only ever read through `get`, so association-list lookup is a faithful
model). -/
def mapGet (m : List (String × String)) (k : String) : Option String :=
  (m.find? (fun p => p.1 == k)).map (fun p => p.2)

/-- Offset tail of an RFC3339 timestamp: `Z` or `±HH:MM`. -/
def rfc3339Offset : List Char → Bool
  | ['Z'] => true
  | [sign, h1, h2, ':', m1, m2] =>
    (sign = '+' || sign = '-') && h1.isDigit && h2.isDigit && m1.isDigit && m2.isDigit
  | _ => false

/-- Shape check for an RFC3339 timestamp `YYYY-MM-DDTHH:MM:SS` followed by
an offset, with an optional fractional-seconds part. -/
def rfc3339Shape : List Char → Bool
  | y1 :: y2 :: y3 :: y4 :: '-' :: mo1 :: mo2 :: '-' :: d1 :: d2 :: 'T' ::
      h1 :: h2 :: ':' :: mi1 :: mi2 :: ':' :: s1 :: s2 :: rest =>
    y1.isDigit && y2.isDigit && y3.isDigit && y4.isDigit &&
    mo1.isDigit && mo2.isDigit && d1.isDigit && d2.isDigit &&
    h1.isDigit && h2.isDigit && mi1.isDigit && mi2.isDigit &&
    s1.isDigit && s2.isDigit &&
    (rfc3339Offset rest ||
      (match rest with
       | '.' :: frac => (frac.takeWhile Char.isDigit).length > 0 &&
           rfc3339Offset (frac.dropWhile Char.isDigit)
       | _ => false))
  | _ => false

/-- Modelled from the spec: `chrono::DateTime::parse_from_rfc3339` is an
external crate function, not code of this repository; the spec (§6) says
`Expiration` is "optional, RFC3339".  We model its acceptance and rejection
behaviour (accept RFC3339-shaped timestamps, reject everything else) and
abstract the parsed instant itself, which the repository never computes
with, to a fixed value. -/
def parse_from_rfc3339 (s : String) : Option Nat :=
  if rfc3339Shape s.toList then some 0 else none

/-- `Credentials::from_map` from src/imds.rs lines 113-141: look up
`AccessKeyId` and `SecretAccessKey` (each missing key becoming a `NotFound`
io error via `ok_or_else` and `?`), read the optional `Token`, parse the
optional `Expiration` with the external RFC3339 parser (a parse failure
becoming an `InvalidInput` io error via `?`), and build the credentials
with provider name "imds". -/
def Credentials.from_map (parse : String → Option Nat)
    (map : List (String × String)) : Except IoError Credentials :=
  match mapGet map "AccessKeyId" with
  | none => .error { kind := .NotFound, message := "AccessKeyId not found" }
  | some access_key_id =>
    match mapGet map "SecretAccessKey" with
    | none => .error { kind := .NotFound, message := "SecretAccessKey not found" }
    | some secret_access_key =>
      let session_token := mapGet map "Token"
      match mapGet map "Expiration" with
      | some e =>
        match parse e with
        | none => .error { kind := .InvalidInput, message := "Unable to parse expiration" }
        | some t =>
          .ok { access_key_id := access_key_id, secret_access_key := secret_access_key,
                session_token := session_token, expires_after := some t,
                provider_name := "imds" }
      | none =>
        .ok { access_key_id := access_key_id, secret_access_key := secret_access_key,
              session_token := session_token, expires_after := none,
              provider_name := "imds" }

end Imds

/-! Spec-side definitions for the EC2 query-parameter encoding, written
from the claim's words (1-based counter, input order preserved), to be
compared with the source-side `to_params` implementations. -/

namespace EC2

/-- Spec-side encoding of a filter's value list: the j-th entry (1-based
counter `k` starting at 1) is `(pfx.Value.k, value)`. -/
def filterValuesSpec (pfx : String) : Nat → List String → List (String × String)
  | _, [] => []
  | k, v :: vs => (pfx ++ ".Value." ++ toString k, v) :: filterValuesSpec pfx (k + 1) vs

/-- Spec-side encoding of a filter list: consecutive blocks, the block for
the filter at 1-based counter `k` encoded under prefix `pfx.k`. -/
def filterBlocksSpec (pfx : String) : Nat → List Filter → List (String × String)
  | _, [] => []
  | k, f :: fs => Filter.to_params f (pfx ++ "." ++ toString k) ++ filterBlocksSpec pfx (k + 1) fs

/-- Spec-side encoding of a string list: the entry at 1-based counter `k`
is `(pfx.k, value)`. -/
def stringParamsSpec (pfx : String) : Nat → List String → List (String × String)
  | _, [] => []
  | k, v :: vs => (pfx ++ "." ++ toString k, v) :: stringParamsSpec pfx (k + 1) vs

end EC2

/-! Concrete fixtures used by the closed witnesses and counterexamples. -/

/-- A signer that always succeeds with empty instructions. -/
def sigv4Trivial : Sigv4 := fun _ _ _ => .ok { headers := [], params := [] }

/-- A signer that always fails (malformed signing input). -/
def sigv4Failing : Sigv4 := fun _ _ _ => .error { message := "malformed identity" }

/-- A fixed identity. -/
def demoIdentity : Identity :=
  { access_key_id := "AKIAEXAMPLE", secret_access_key := "secretkey", session_token := none }

/-- A fixed draft request. -/
def demoRequest : Request :=
  { method := "GET", url := "https://bucket.s3.us-east-1.amazonaws.com/",
    headers := [], queryParams := [] }

/-- A transport that refuses every connection. -/
def netAlwaysRefused : Nat → Request → Except UreqError Response :=
  fun _ _ => .error (.transport "connection refused")

/-- A transport outcome sequence that fails with HTTP 500 twice and then
succeeds. -/
def callThirdOk : Nat → Except S3.Error Response :=
  fun k =>
    if k < 2 then .error (S3.Error.Api 500 { status := 500, body := "err" })
    else .ok { status := 200, body := "ok" }

/-! Helper lemmas about the trace observers and the retry loop. -/

theorem transmissions_cons_attemptSend {ε : Type} (req : Request) (body : List Nat)
    (o : Except ε Response) (rest : List (SendEvent ε)) :
    transmissions (.attemptSend req body o :: rest) = (req, body) :: transmissions rest := by
  simp [transmissions]

theorem transmissions_cons_sleep {ε : Type} (ms : Nat) (rest : List (SendEvent ε)) :
    transmissions (.sleep ms :: rest) = transmissions rest := by
  simp [transmissions]

theorem attemptCount_cons_attemptSend {ε : Type} (req : Request) (body : List Nat)
    (o : Except ε Response) (rest : List (SendEvent ε)) :
    attemptCount (.attemptSend req body o :: rest) = attemptCount rest + 1 := by
  simp [attemptCount, List.filter_cons]

theorem attemptCount_cons_sleep {ε : Type} (ms : Nat) (rest : List (SendEvent ε)) :
    attemptCount (.sleep ms :: rest) = attemptCount rest := by
  simp [attemptCount, List.filter_cons]

/-- Every transmission of one retry loop run sends the same request and the
same body bytes: the fixed pair the loop was given. -/
theorem retryLoopGo_transmissions {ε : Type} (call : Nat → Except ε Response)
    (req : Request) (body : List Nat) :
    ∀ (budget retries : Nat),
      transmissions (retryLoopGo call req body retries budget).1 =
        List.replicate (attemptCount (retryLoopGo call req body retries budget).1) (req, body) := by
  intro budget
  induction budget with
  | zero =>
    intro rt
    cases h : call rt <;>
      simp [retryLoopGo, h, transmissions, attemptCount]
  | succ b ih =>
    intro rt
    cases h : call rt with
    | ok r => simp [retryLoopGo, h, transmissions, attemptCount]
    | error e =>
      by_cases hrt : rt > 0 <;>
        simp [retryLoopGo, h, hrt, transmissions_cons_attemptSend, transmissions_cons_sleep,
          attemptCount_cons_attemptSend, attemptCount_cons_sleep, List.replicate_succ,
          ih (rt + 1)]

/-- Characterization of the sleeps of one run with the source's retry bound
3: the delay before the initial attempt and before the first retry is 0,
and the delay before the k-th retry is (k-1)*10 milliseconds. -/
theorem loop3_delays {ε : Type} (call : Nat → Except ε Response) (req : Request)
    (body : List Nat) :
    delaysBeforeAttempts (retryLoopGo call req body 0 3).1 0 =
      (List.range (attemptCount (retryLoopGo call req body 0 3).1)).map
        (fun k => (k - 1) * 10) := by
  cases h0 : call 0 with
  | ok r0 => simp [retryLoopGo, h0, delaysBeforeAttempts, attemptCount, List.range_succ]
  | error e0 =>
    cases h1 : call 1 with
    | ok r1 =>
      simp [retryLoopGo, h0, h1, delaysBeforeAttempts, attemptCount, List.range_succ]
    | error e1 =>
      cases h2 : call 2 with
      | ok r2 =>
        simp [retryLoopGo, h0, h1, h2, delaysBeforeAttempts, attemptCount, List.range_succ]
      | error e2 =>
        cases h3 : call 3 with
        | ok r3 =>
          simp [retryLoopGo, h0, h1, h2, h3, delaysBeforeAttempts, attemptCount,
            List.range_succ]
        | error e3 =>
          simp [retryLoopGo, h0, h1, h2, h3, delaysBeforeAttempts, attemptCount,
            List.range_succ]

/-! Claim theorems. -/

/-- C1 counterexample: for the s3 send with a closure that fails every
attempt with a retryable (transport) error, the closure is invoked 4 times,
not 3 (the configured maximum in the source, `retries >= 3`) and not 5 (the
other value the spec reports). -/
theorem c1_counterexample :
    attemptCount (S3.send sigv4Trivial 0 netAlwaysRefused demoIdentity
      "us-east-1" demoRequest).events = 4 ∧
    attemptCount (S3.send sigv4Trivial 0 netAlwaysRefused demoIdentity
      "us-east-1" demoRequest).events ≠ 3 ∧
    attemptCount (S3.send sigv4Trivial 0 netAlwaysRefused demoIdentity
      "us-east-1" demoRequest).events ≠ 5 := by
  refine ⟨by decide, by decide, by decide⟩

/-- C1 (amended): the retry bound configured in every per-service send is 3
(`retries >= 3`); a send whose every transport attempt fails with a
retryable error invokes the transport exactly 4 times (one initial attempt
plus 3 retries) and returns the last failure as the terminal error.  Stated
for the s3 and ssm senders, whose loops are textually identical. -/
theorem c1_always_failing_send_makes_four_attempts :
    (∀ (sigv4 : Sigv4) (now : Nat) (net : Nat → Request → Except UreqError Response)
       (identity : Identity) (region : String) (req signed : Request) (e : Nat → UreqError),
      sign_request sigv4 now req [] identity region S3.SERVICE_NAME = .ok signed →
      (∀ k r, net k r = .error (e k)) →
      attemptCount (S3.send sigv4 now net identity region req).events = 4 ∧
      (S3.send sigv4 now net identity region req).result =
        .error (S3.Error.fromUreq (e 3))) ∧
    (∀ (sigv4 : Sigv4) (now : Nat)
       (net : Nat → Request → List Nat → Except UreqError Response)
       (identity : Identity) (region : String) (req signed : Request) (body : List Nat)
       (e : Nat → UreqError),
      sign_request sigv4 now req body identity region SSM.SERVICE_NAME = .ok signed →
      (∀ k r b, net k r b = .error (e k)) →
      attemptCount (SSM.send sigv4 now net identity region req (.ok body)).events = 4 ∧
      (SSM.send sigv4 now net identity region req (.ok body)).result =
        .error (SSM.Error.fromUreq (e 3))) := by
  constructor
  · intro sigv4 now net identity region req signed e hsign hfail
    refine ⟨?_, ?_⟩ <;>
      simp [S3.send, hsign, retryLoopGo, mapUreqErr, hfail, attemptCount]
  · intro sigv4 now net identity region req signed body e hsign hfail
    refine ⟨?_, ?_⟩ <;>
      simp [SSM.send, hsign, retryLoopGo, mapUreqErr, hfail, attemptCount]

/-- C1 witness: the amended statement instantiated at a concrete
always-refused transport. -/
theorem c1_witness :
    attemptCount (S3.send sigv4Trivial 0 netAlwaysRefused demoIdentity
      "us-east-1" demoRequest).events = 4 ∧
    (S3.send sigv4Trivial 0 netAlwaysRefused demoIdentity
      "us-east-1" demoRequest).result =
      .error (S3.Error.fromUreq (.transport "connection refused")) :=
  c1_always_failing_send_makes_four_attempts.1 sigv4Trivial 0 netAlwaysRefused
    demoIdentity "us-east-1" demoRequest demoRequest
    (fun _ => .transport "connection refused") rfl (fun _ _ => rfl)

/-- C2: within one send, the delay recorded before invocation k of the
transport (invocation 0 is the initial attempt, invocation k is the k-th
retry) is (k-1)*10 milliseconds under truncated subtraction — so the first
retry runs with zero delay and the k-th retry (k >= 2) waits exactly
(k-1)*10 ms.  Stated for the shared retry loop and for the s3 and ec2
senders that instantiate it. -/
theorem c2_linear_backoff :
    (∀ (ε : Type) (call : Nat → Except ε Response) (req : Request) (body : List Nat),
      delaysBeforeAttempts (retryLoopGo call req body 0 3).1 0 =
        (List.range (attemptCount (retryLoopGo call req body 0 3).1)).map
          (fun k => (k - 1) * 10)) ∧
    (∀ (sigv4 : Sigv4) (now : Nat) (net : Nat → Request → Except UreqError Response)
       (identity : Identity) (region : String) (req signed : Request),
      sign_request sigv4 now req [] identity region S3.SERVICE_NAME = .ok signed →
      delaysBeforeAttempts (S3.send sigv4 now net identity region req).events 0 =
        (List.range (attemptCount (S3.send sigv4 now net identity region req).events)).map
          (fun k => (k - 1) * 10)) ∧
    (∀ (sigv4 : Sigv4) (now : Nat) (urlencode : List (String × String) → List Nat)
       (net : Nat → Request → List Nat → Except UreqError Response)
       (identity : Identity) (region : String) (req signed : Request)
       (params : List (String × String)),
      sign_request sigv4 now req (urlencode params) identity region EC2.SERVICE_NAME =
        .ok signed →
      delaysBeforeAttempts
          (EC2.send sigv4 now urlencode net identity region req params).events 0 =
        (List.range
          (attemptCount (EC2.send sigv4 now urlencode net identity region req params).events)).map
          (fun k => (k - 1) * 10)) := by
  refine ⟨fun ε call req body => loop3_delays call req body, ?_, ?_⟩
  · intro sigv4 now net identity region req signed hsign
    simp only [S3.send, hsign]
    exact loop3_delays _ signed []
  · intro sigv4 now urlencode net identity region req signed params hsign
    simp only [EC2.send, hsign]
    exact loop3_delays _ signed (urlencode params)

/-- C2 witness: the s3 conjunct instantiated at a concrete send. -/
theorem c2_witness :
    delaysBeforeAttempts (S3.send sigv4Trivial 0 netAlwaysRefused demoIdentity
      "us-east-1" demoRequest).events 0 =
      (List.range (attemptCount (S3.send sigv4Trivial 0 netAlwaysRefused demoIdentity
        "us-east-1" demoRequest).events)).map (fun k => (k - 1) * 10) :=
  c2_linear_backoff.2.1 sigv4Trivial 0 netAlwaysRefused demoIdentity "us-east-1"
    demoRequest demoRequest rfl

/-- C3: the signer is invoked exactly once per operation (its input request
and body are recorded once in `signCalls`), and every transport attempt of
the operation re-sends the same signed request with the same body bytes —
the bytes given to the signer.  Stated for the ssm sender (non-empty JSON
body) and the s3 sender (empty body `&[]`). -/
theorem c3_sign_once_attempts_resend_same_bytes :
    (∀ (sigv4 : Sigv4) (now : Nat)
       (net : Nat → Request → List Nat → Except UreqError Response)
       (identity : Identity) (region : String) (req signed : Request) (body : List Nat),
      sign_request sigv4 now req body identity region SSM.SERVICE_NAME = .ok signed →
      (SSM.send sigv4 now net identity region req (.ok body)).signCalls = [(req, body)] ∧
      transmissions (SSM.send sigv4 now net identity region req (.ok body)).events =
        List.replicate
          (attemptCount (SSM.send sigv4 now net identity region req (.ok body)).events)
          (signed, body)) ∧
    (∀ (sigv4 : Sigv4) (now : Nat) (net : Nat → Request → Except UreqError Response)
       (identity : Identity) (region : String) (req signed : Request),
      sign_request sigv4 now req [] identity region S3.SERVICE_NAME = .ok signed →
      (S3.send sigv4 now net identity region req).signCalls = [(req, [])] ∧
      transmissions (S3.send sigv4 now net identity region req).events =
        List.replicate (attemptCount (S3.send sigv4 now net identity region req).events)
          (signed, [])) := by
  constructor
  · intro sigv4 now net identity region req signed body hsign
    constructor
    · simp [SSM.send, hsign]
    · simp only [SSM.send, hsign]
      exact retryLoopGo_transmissions _ signed body 3 0
  · intro sigv4 now net identity region req signed hsign
    constructor
    · simp [S3.send, hsign]
    · simp only [S3.send, hsign]
      exact retryLoopGo_transmissions _ signed [] 3 0

/-- C3 witness: the s3 conjunct instantiated at a concrete send. -/
theorem c3_witness :
    (S3.send sigv4Trivial 0 netAlwaysRefused demoIdentity
      "us-east-1" demoRequest).signCalls = [(demoRequest, [])] ∧
    transmissions (S3.send sigv4Trivial 0 netAlwaysRefused demoIdentity
      "us-east-1" demoRequest).events =
      List.replicate (attemptCount (S3.send sigv4Trivial 0 netAlwaysRefused demoIdentity
        "us-east-1" demoRequest).events) (demoRequest, []) :=
  c3_sign_once_attempts_resend_same_bytes.2 sigv4Trivial 0 netAlwaysRefused
    demoIdentity "us-east-1" demoRequest demoRequest rfl

/-- C4: the From impl classifies every non-2xx status (including 4xx) as an
`Api` failure and every transport failure as a `Transport` failure, and the
retry loop treats every failure — whatever its value — as retryable: three
initial failures always lead to a fourth attempt, so no status code is
terminal before the budget is exhausted. -/
theorem c4_all_failures_retryable :
    (∀ (code : Nat) (r : Response),
      S3.Error.fromUreq (.status code r) = S3.Error.Api code r) ∧
    (∀ (m : String),
      S3.Error.fromUreq (.transport m) = S3.Error.Transport (.transport m)) ∧
    (∀ (ε : Type) (call : Nat → Except ε Response) (req : Request) (body : List Nat)
       (e0 e1 e2 : ε),
      call 0 = .error e0 → call 1 = .error e1 → call 2 = .error e2 →
      attemptCount (retryLoopGo call req body 0 3).1 = 4) := by
  refine ⟨fun _ _ => rfl, fun _ => rfl, ?_⟩
  intro ε call req body e0 e1 e2 h0 h1 h2
  rcases h3 : call 3 with r3 | e3 <;>
    simp [retryLoopGo, h0, h1, h2, h3, attemptCount]

/-- C4 witness: a 404 client error is retried up to the full budget. -/
theorem c4_witness :
    attemptCount (retryLoopGo
      (fun _ => (Except.error (S3.Error.Api 404 { status := 404, body := "nf" }) :
        Except S3.Error Response)) demoRequest [] 0 3).1 = 4 :=
  c4_all_failures_retryable.2.2 S3.Error _ demoRequest [] _ _ _ rfl rfl rfl

/-- C5: when signing fails, the s3 send returns at once with the distinct
`Error::Request(SigningError)` kind: the retry loop is never entered, zero
transmission attempts are made and no sleep occurs. -/
theorem c5_signing_failure_is_terminal_no_attempts :
    ∀ (sigv4 : Sigv4) (now : Nat) (net : Nat → Request → Except UreqError Response)
      (identity : Identity) (region : String) (req : Request) (e : SigningError),
      sigv4 { identity := identity, region := region, name := S3.SERVICE_NAME,
              time := now, settings := signingSettingsFor S3.SERVICE_NAME } req [] =
        .error e →
      (S3.send sigv4 now net identity region req).events = [] ∧
      attemptCount (S3.send sigv4 now net identity region req).events = 0 ∧
      sleepsOf (S3.send sigv4 now net identity region req).events = [] ∧
      (S3.send sigv4 now net identity region req).result =
        .error (S3.Error.Request (RequestError.SigningError e)) := by
  intro sigv4 now net identity region req e hsig
  refine ⟨?_, ?_, ?_, ?_⟩ <;>
    simp [S3.send, sign_request, hsig, attemptCount, sleepsOf]

/-- C5 witness: a concrete failing signer. -/
theorem c5_witness :
    (S3.send sigv4Failing 0 netAlwaysRefused demoIdentity
      "us-east-1" demoRequest).events = [] ∧
    (S3.send sigv4Failing 0 netAlwaysRefused demoIdentity
      "us-east-1" demoRequest).result =
      .error (S3.Error.Request (RequestError.SigningError
        { message := "malformed identity" })) :=
  ⟨(c5_signing_failure_is_terminal_no_attempts sigv4Failing 0 netAlwaysRefused
      demoIdentity "us-east-1" demoRequest _ rfl).1,
   (c5_signing_failure_is_terminal_no_attempts sigv4Failing 0 netAlwaysRefused
      demoIdentity "us-east-1" demoRequest _ rfl).2.2.2⟩

/-- C8: whenever an attempt within the retry loop succeeds — at any
invocation index k of the budget (k = 0 is the initial attempt), with the
preceding invocations having failed — the sender returns that response
immediately: the closure is invoked exactly k+1 times (never again after
the success), and the trace ends with the successful attempt, so no delay
is performed after it.  In particular a closure succeeding on its 3rd
invocation is called exactly 3 times; the second conjunct additionally pins
the full event trace of that instance. -/
theorem c8_success_stops_retrying :
    (∀ (ε : Type) (call : Nat → Except ε Response) (req : Request) (body : List Nat)
       (k : Nat) (r : Response),
      k ≤ 3 →
      (∀ j, j < k → ∃ e, call j = Except.error e) →
      call k = Except.ok r →
      (retryLoopGo call req body 0 3).2 = .ok r ∧
      attemptCount (retryLoopGo call req body 0 3).1 = k + 1 ∧
      (retryLoopGo call req body 0 3).1.getLast? =
        some (.attemptSend req body (.ok r))) ∧
    (∀ (ε : Type) (call : Nat → Except ε Response) (req : Request) (body : List Nat)
       (e0 e1 : ε) (r : Response),
      call 0 = .error e0 → call 1 = .error e1 → call 2 = .ok r →
      (retryLoopGo call req body 0 3).1 =
        [.attemptSend req body (.error e0), .attemptSend req body (.error e1),
         .sleep 10, .attemptSend req body (.ok r)] ∧
      (retryLoopGo call req body 0 3).2 = .ok r ∧
      attemptCount (retryLoopGo call req body 0 3).1 = 3) := by
  constructor
  · intro ε call req body k r hk hprev hok
    interval_cases k
    · refine ⟨?_, ?_, ?_⟩ <;> simp [retryLoopGo, hok, attemptCount]
    · obtain ⟨e0, h0⟩ := hprev 0 (by norm_num)
      refine ⟨?_, ?_, ?_⟩ <;> simp [retryLoopGo, h0, hok, attemptCount]
    · obtain ⟨e0, h0⟩ := hprev 0 (by norm_num)
      obtain ⟨e1, h1⟩ := hprev 1 (by norm_num)
      refine ⟨?_, ?_, ?_⟩ <;> simp [retryLoopGo, h0, h1, hok, attemptCount]
    · obtain ⟨e0, h0⟩ := hprev 0 (by norm_num)
      obtain ⟨e1, h1⟩ := hprev 1 (by norm_num)
      obtain ⟨e2, h2⟩ := hprev 2 (by norm_num)
      refine ⟨?_, ?_, ?_⟩ <;> simp [retryLoopGo, h0, h1, h2, hok, attemptCount]
  · intro ε call req body e0 e1 r h0 h1 h2
    refine ⟨?_, ?_, ?_⟩ <;> simp [retryLoopGo, h0, h1, h2, attemptCount]

/-- C8 witness: the general conjunct applied at a transport succeeding on
its 3rd invocation (success position k = 2, both earlier attempts failing),
and the trace-pinning conjunct applied at the same transport. -/
theorem c8_witness :
    ((retryLoopGo callThirdOk demoRequest [] 0 3).2 =
        .ok { status := 200, body := "ok" } ∧
      attemptCount (retryLoopGo callThirdOk demoRequest [] 0 3).1 = 2 + 1 ∧
      (retryLoopGo callThirdOk demoRequest [] 0 3).1.getLast? =
        some (.attemptSend demoRequest [] (.ok { status := 200, body := "ok" }))) ∧
    (retryLoopGo callThirdOk demoRequest [] 0 3).1 =
      [.attemptSend demoRequest [] (.error (S3.Error.Api 500 { status := 500, body := "err" })),
       .attemptSend demoRequest [] (.error (S3.Error.Api 500 { status := 500, body := "err" })),
       .sleep 10, .attemptSend demoRequest [] (.ok { status := 200, body := "ok" })] :=
  ⟨c8_success_stops_retrying.1 S3.Error callThirdOk demoRequest [] 2 _ (by decide)
      (fun j hj => ⟨S3.Error.Api 500 { status := 500, body := "err" },
        by interval_cases j <;> rfl⟩) rfl,
   (c8_success_stops_retrying.2 S3.Error callThirdOk demoRequest [] _ _ _
      rfl rfl rfl).1⟩

/-- C6: the payload-checksum signing setting is switched to the explicit
content-hash-in-header mode (`XAmzSha256`) if and only if the service name
is "s3"; for every other service name the signing settings remain at their
default. -/
theorem c6_payload_checksum_iff_s3 (service : String) :
    ((signingSettingsFor service).payload_checksum_kind =
        PayloadChecksumKind.XAmzSha256 ↔ service = "s3") ∧
    (service ≠ "s3" → signingSettingsFor service = SigningSettings.default) := by
  constructor
  · constructor
    · intro h
      by_contra hne
      simp [signingSettingsFor, hne, SigningSettings.default] at h
    · intro h
      simp [signingSettingsFor, h]
  · intro h
    simp [signingSettingsFor, h]

/-- C6 witness: "s3" switches the mode, "ec2" keeps the default. -/
theorem c6_witness :
    (signingSettingsFor "s3").payload_checksum_kind = PayloadChecksumKind.XAmzSha256 ∧
    signingSettingsFor "ec2" = SigningSettings.default :=
  ⟨(c6_payload_checksum_iff_s3 "s3").1.mpr rfl,
   (c6_payload_checksum_iff_s3 "ec2").2 (by decide)⟩

/-- C7: when the send returns a status (`Api`) failure and the error body
fails to deserialize into the service's error-body shape, the operation
returns the deserialization failure (`Xml` for s3's `list_objects_v2`,
`Json` for ssm's `get_parameter`) — an error kind distinct from both the
original `Api` status failure and the wrapped domain (`S3`/`SSM`) error. -/
theorem c7_error_body_parse_failure_surfaced :
    (∀ (send : Request → Except S3.Error Response)
       (parse_output : String → Except XmlError S3.ListObjectsV2Output)
       (parse_err_body : String → Except XmlError S3.ErrorBody)
       (region : String) (input : S3.ListObjectsV2Input)
       (status : Nat) (resp : Response) (e : XmlError),
      (∀ r, send r = .error (.Api status resp)) →
      parse_err_body resp.body = .error e →
      S3.list_objects_v2 send parse_output parse_err_body region input =
        .error (.Xml e) ∧
      (∀ c r, S3.Error.Xml e ≠ S3.Error.Api c r) ∧
      (∀ b, S3.Error.Xml e ≠ S3.Error.S3 b)) ∧
    (∀ (send : Request → Except SSM.Error Response)
       (parse_output : String → Except JsonError SSM.GetParameterOutput)
       (parse_err_body : String → Except JsonError SSM.ErrorBody)
       (region : String) (status : Nat) (resp : Response) (e : JsonError),
      (∀ r, send r = .error (.Api status resp)) →
      parse_err_body resp.body = .error e →
      SSM.get_parameter send parse_output parse_err_body region = .error (.Json e) ∧
      (∀ c r, SSM.Error.Json e ≠ SSM.Error.Api c r) ∧
      (∀ b, SSM.Error.Json e ≠ SSM.Error.SSM b)) := by
  constructor
  · intro send parse_output parse_err_body region input status resp e hsend hparse
    refine ⟨?_, ?_, ?_⟩ <;> simp [S3.list_objects_v2, hsend, hparse]
  · intro send parse_output parse_err_body region status resp e hsend hparse
    refine ⟨?_, ?_, ?_⟩ <;> simp [SSM.get_parameter, hsend, hparse]

/-- C7 witness: a concrete 403 status failure whose XML error body does not
parse. -/
theorem c7_witness :
    S3.list_objects_v2
      (fun _ => .error (.Api 403 { status := 403, body := "<denied>" }))
      (fun _ => .error { message := "unused" })
      (fun _ => .error { message := "invalid xml" })
      "us-east-1" { bucket := "bucket", continuation_token := none, pfx := none } =
      .error (.Xml { message := "invalid xml" }) :=
  (c7_error_body_parse_failure_surfaced.1
    (fun _ => .error (.Api 403 { status := 403, body := "<denied>" }))
    (fun _ => .error { message := "unused" })
    (fun _ => .error { message := "invalid xml" })
    "us-east-1" { bucket := "bucket", continuation_token := none, pfx := none }
    403 { status := 403, body := "<denied>" } { message := "invalid xml" }
    (fun _ => rfl) rfl).1

/-- C9 counterexample: a map holding both required keys and an
`Expiration` value that is not RFC3339 makes `from_map` return an
`InvalidInput` error, not a success — so "when both required keys are
present the call succeeds" is false as stated. -/
theorem c9_counterexample :
    Imds.Credentials.from_map Imds.parse_from_rfc3339
      [("AccessKeyId", "AKIAEXAMPLE"), ("SecretAccessKey", "secretkey"),
       ("Expiration", "garbage")] =
      .error { kind := .InvalidInput, message := "Unable to parse expiration" } := by
  rfl

/-- C9 (amended): `from_map` on a map missing `AccessKeyId` (or, with
`AccessKeyId` present, missing `SecretAccessKey`) returns a NotFound-kind
error — never a panic (the model is a total function into `Except`) and
never a default value; when both required keys are present the call
succeeds, with session token and expiration each independently optional,
provided any present `Expiration` value parses as RFC3339 — a present but
unparseable `Expiration` instead yields an InvalidInput-kind error. -/
theorem c9_from_map_notfound_and_guarded_success :
    (∀ (parse : String → Option Nat) (m : List (String × String)),
      Imds.mapGet m "AccessKeyId" = none →
      Imds.Credentials.from_map parse m =
        .error { kind := .NotFound, message := "AccessKeyId not found" }) ∧
    (∀ (parse : String → Option Nat) (m : List (String × String)) (a : String),
      Imds.mapGet m "AccessKeyId" = some a →
      Imds.mapGet m "SecretAccessKey" = none →
      Imds.Credentials.from_map parse m =
        .error { kind := .NotFound, message := "SecretAccessKey not found" }) ∧
    (∀ (parse : String → Option Nat) (m : List (String × String)) (a s : String),
      Imds.mapGet m "AccessKeyId" = some a →
      Imds.mapGet m "SecretAccessKey" = some s →
      Imds.mapGet m "Expiration" = none →
      Imds.Credentials.from_map parse m =
        .ok { access_key_id := a, secret_access_key := s,
              session_token := Imds.mapGet m "Token", expires_after := none,
              provider_name := "imds" }) ∧
    (∀ (parse : String → Option Nat) (m : List (String × String)) (a s e : String)
       (t : Nat),
      Imds.mapGet m "AccessKeyId" = some a →
      Imds.mapGet m "SecretAccessKey" = some s →
      Imds.mapGet m "Expiration" = some e →
      parse e = some t →
      Imds.Credentials.from_map parse m =
        .ok { access_key_id := a, secret_access_key := s,
              session_token := Imds.mapGet m "Token", expires_after := some t,
              provider_name := "imds" }) := by
  refine ⟨?_, ?_, ?_, ?_⟩ <;> intros <;> simp [Imds.Credentials.from_map, *]

/-- C9 witness: a missing `AccessKeyId` yields the NotFound error, and a
complete map with a well-formed RFC3339 expiration succeeds with the token
preserved. -/
theorem c9_witness :
    Imds.Credentials.from_map Imds.parse_from_rfc3339 [("SecretAccessKey", "secretkey")] =
      .error { kind := .NotFound, message := "AccessKeyId not found" } ∧
    Imds.Credentials.from_map Imds.parse_from_rfc3339
      [("AccessKeyId", "AKIAEXAMPLE"), ("SecretAccessKey", "secretkey"),
       ("Token", "tok"), ("Expiration", "2024-01-01T00:00:00Z")] =
      .ok { access_key_id := "AKIAEXAMPLE", secret_access_key := "secretkey",
            session_token := some "tok", expires_after := some 0,
            provider_name := "imds" } :=
  ⟨c9_from_map_notfound_and_guarded_success.1 Imds.parse_from_rfc3339
      [("SecretAccessKey", "secretkey")] rfl,
   c9_from_map_notfound_and_guarded_success.2.2.2 Imds.parse_from_rfc3339
      [("AccessKeyId", "AKIAEXAMPLE"), ("SecretAccessKey", "secretkey"),
       ("Token", "tok"), ("Expiration", "2024-01-01T00:00:00Z")]
      "AKIAEXAMPLE" "secretkey" "2024-01-01T00:00:00Z" 0 rfl rfl rfl (by rfl)⟩

/-! Helper lemmas relating the enumerate-based encoders to the 1-based
counter recursions. -/

theorem enumFrom_map_values (pfx : String) (vs : List String) :
    ∀ n : Nat,
      (List.enumFrom n vs).map
          (fun iv => (pfx ++ ".Value." ++ toString (iv.1 + 1), iv.2)) =
        EC2.filterValuesSpec pfx (n + 1) vs := by
  induction vs with
  | nil => intro n; simp [EC2.filterValuesSpec]
  | cons v vs ih =>
    intro n
    simp [List.enumFrom, EC2.filterValuesSpec, ih (n + 1)]

theorem enumFrom_map_strings (pfx : String) (vs : List String) :
    ∀ n : Nat,
      (List.enumFrom n vs).map (fun iv => (pfx ++ "." ++ toString (iv.1 + 1), iv.2)) =
        EC2.stringParamsSpec pfx (n + 1) vs := by
  induction vs with
  | nil => intro n; simp [EC2.stringParamsSpec]
  | cons v vs ih =>
    intro n
    simp [List.enumFrom, EC2.stringParamsSpec, ih (n + 1)]

theorem enumFrom_map_filters (pfx : String) (fs : List EC2.Filter) :
    ∀ n : Nat,
      ((List.enumFrom n fs).map
          (fun ifl => EC2.Filter.to_params ifl.2 (pfx ++ "." ++ toString (ifl.1 + 1)))).flatten =
        EC2.filterBlocksSpec pfx (n + 1) fs := by
  induction fs with
  | nil => intro n; simp [EC2.filterBlocksSpec]
  | cons f fs ih =>
    intro n
    simp [List.enumFrom, EC2.filterBlocksSpec, ih (n + 1)]

/-- C10: the query-parameter encoders produce exactly the 1-based,
order-preserving encodings: a filter encodes as `(pfx.Name, name)` followed
by `(pfx.Value.k, v_k)` for its values in order (k starting at 1); a filter
list encodes the filter at 0-based position i as its block under prefix
`pfx.{i+1}`, blocks in order; a string list encodes the value at 0-based
position i as `(pfx.{i+1}, value)`, in order. -/
theorem c10_to_params_one_based_ordered (pfx : String) :
    (∀ f : EC2.Filter,
      EC2.Filter.to_params f pfx =
        (pfx ++ ".Name", f.name) :: EC2.filterValuesSpec pfx 1 f.values) ∧
    (∀ fs : List EC2.Filter,
      EC2.filters_to_params fs pfx = EC2.filterBlocksSpec pfx 1 fs) ∧
    (∀ vs : List String,
      EC2.strings_to_params vs pfx = EC2.stringParamsSpec pfx 1 vs) := by
  refine ⟨?_, ?_, ?_⟩
  · intro f
    have h := enumFrom_map_values pfx f.values 0
    simpa [EC2.Filter.to_params, List.enum] using h
  · intro fs
    have h := enumFrom_map_filters pfx fs 0
    simpa [EC2.filters_to_params, List.enum] using h
  · intro vs
    have h := enumFrom_map_strings pfx vs 0
    simpa [EC2.strings_to_params, List.enum] using h

end Minaws
